import Mathlib

/-!
Verification of the risk-state-machine core of the repository
(source file src/state_pattern.rs).

The Rust program is shallowly embedded as follows.

* TradingEngineCommand, the four risk regimes, the RiskManager struct and
  its HashMap of positions are translated to Lean inductives, a structure,
  and an association list with unique keys (String to Rat).
* f64 values are modelled as rational numbers (the spec calls them real
  numbers; every operation used is sum and comparison, and the literal 1.2
  becomes 6/5).
* Side effects are made explicit in a World structure: the mpsc channel is
  a list of delivered commands plus an open/closed flag, a failed-send
  counter records sends whose Result was an error, the println output is a
  log list, and send_email_notification appends to a notifications list.
* Each Rust method that takes the manager (and performs side effects)
  becomes a function World to World; pure helpers stay on RiskManager.
* The trading-engine worker loop (TradingEngine::start) is embedded as a
  function from the finite list of delivered commands to the list of
  commands it processes before terminating.
-/

set_option maxHeartbeats 1000000

namespace StatePattern

/-- Commands sent to the trading engine, from the Rust enum
TradingEngineCommand. -/
inductive TradingEngineCommand where
  | ExecuteTrade
  | NoTrade
  | StopEngine
  deriving DecidableEq, Repr

open TradingEngineCommand

/-- The four concrete implementors of the RiskState trait. -/
inductive RiskStateTag where
  | NormalOperation
  | WarningLevel
  | LimitBreach
  | Shutdown
  deriving DecidableEq, Repr

open RiskStateTag

/-- A RiskState trait object: which implementor it is, plus the cmd field
each of the four Rust state structs carries. -/
structure RiskStateVal where
  tag : RiskStateTag
  cmd : TradingEngineCommand
  deriving DecidableEq, Repr

/-- The RiskManager struct. The trading_engine_sender field lives in
World (it is the send endpoint of the channel modelled there). -/
structure RiskManager where
  state : RiskStateVal
  var_limit : Rat
  warning_level : Rat
  current_var : Rat
  positions : List (String × Rat)
  deriving DecidableEq, Repr

/-- The whole observable machine state: the manager plus all effect
channels (mpsc channel contents and liveness, count of sends that returned
an error, email notifications, println log). -/
structure World where
  manager : RiskManager
  channelOpen : Bool
  channel : List TradingEngineCommand
  failedSends : Nat
  notifications : List String
  log : List String
  deriving DecidableEq, Repr

/-- HashMap::insert on the association list: overwrite the entry with the
given key if present, else append. -/
def insertPos : List (String × Rat) → String → Rat → List (String × Rat)
  | [], k, v => [(k, v)]
  | (k0, v0) :: rest, k, v =>
      if k0 = k then (k, v) :: rest else (k0, v0) :: insertPos rest k v

/-- HashMap::remove on the association list: drop the entry with the given
key if present. -/
def removePos : List (String × Rat) → String → List (String × Rat)
  | [], _ => []
  | (k0, v0) :: rest, k => if k0 = k then rest else (k0, v0) :: removePos rest k

/-- HashMap::get on the association list. -/
def lookupPos : List (String × Rat) → String → Option Rat
  | [], _ => none
  | (k0, v0) :: rest, k => if k0 = k then some v0 else lookupPos rest k

/-- self.positions.values().sum() -/
def sumVals (l : List (String × Rat)) : Rat := (l.map Prod.snd).sum

/-- RiskManager::should_shutdown: current_var at or above 1.2 times the
limit. -/
def should_shutdown (ctx : RiskManager) : Bool :=
  decide (ctx.var_limit * (6 / 5) ≤ ctx.current_var)

/-- The check_var method of each of the four RiskState implementors,
translated branch for branch from the Rust source. -/
def check_var (s : RiskStateVal) (ctx : RiskManager) : Option RiskStateVal :=
  match s.tag with
  | NormalOperation =>
      if ctx.warning_level ≤ ctx.current_var ∧ ctx.current_var < ctx.var_limit then
        some ⟨WarningLevel, ExecuteTrade⟩
      else if ctx.var_limit ≤ ctx.current_var then
        some ⟨LimitBreach, NoTrade⟩
      else
        none
  | WarningLevel =>
      if ctx.current_var < ctx.warning_level then
        some ⟨NormalOperation, ExecuteTrade⟩
      else if ctx.var_limit ≤ ctx.current_var then
        some ⟨LimitBreach, NoTrade⟩
      else
        none
  | LimitBreach =>
      if ctx.current_var < ctx.var_limit ∧ ctx.warning_level ≤ ctx.current_var then
        some ⟨WarningLevel, ExecuteTrade⟩
      else if ctx.current_var < ctx.warning_level then
        some ⟨NormalOperation, ExecuteTrade⟩
      else if should_shutdown ctx then
        some ⟨Shutdown, StopEngine⟩
      else
        none
  | Shutdown => none

/-- The command each state sends from its send_command method: Warning
hardcodes ExecuteTrade, the other three send their cmd field. -/
def stateDirective (s : RiskStateVal) : TradingEngineCommand :=
  match s.tag with
  | WarningLevel => ExecuteTrade
  | _ => s.cmd

/-- One println line. -/
def emitLog (w : World) (msg : String) : World :=
  { w with log := w.log ++ [msg] }

/-- send_email_notification: records the notification and its println
line. -/
def send_email_notification (w : World) (msg : String) : World :=
  { w with
    notifications := w.notifications ++ [msg],
    log := w.log ++ ["Sending email notification: " ++ msg] }

/-- Sender::send on the mpsc channel. The Rust call sites discard the
returned Result; a send on a closed channel only bumps the failure
counter. -/
def channelSend (w : World) (c : TradingEngineCommand) : World :=
  if w.channelOpen then { w with channel := w.channel ++ [c] }
  else { w with failedSends := w.failedSends + 1 }

/-- The send_command method of a state trait object. -/
def state_send_command (s : RiskStateVal) (w : World) : World :=
  channelSend w (stateDirective s)

/-- The enter_state method of each state: the println line, the email
notification for Warning, Breach and Shutdown, and, for Shutdown only,
the immediate self.send_command call. -/
def enter_state (s : RiskStateVal) (w : World) : World :=
  match s.tag with
  | NormalOperation => emitLog w "Entering Normal Operation State"
  | WarningLevel =>
      send_email_notification (emitLog w "Entering Warning Level State")
        "Warning Level reached. Increased monitoring and trading limitations are in effect."
  | LimitBreach =>
      send_email_notification (emitLog w "Entering Limit Breach State")
        "Limit Breach! New trades are blocked. Positions may be closed."
  | Shutdown =>
      state_send_command s
        (send_email_notification (emitLog w "Entering Shutdown State")
          "Shutdown initiated due to extreme risk levels.")

/-- The exit_state method of each state: a println line only. -/
def exit_state (s : RiskStateVal) (w : World) : World :=
  match s.tag with
  | NormalOperation => emitLog w "Exiting Normal Operation State"
  | WarningLevel => emitLog w "Exiting Warning Level State"
  | LimitBreach => emitLog w "Exiting Limit Breach State"
  | Shutdown => emitLog w "Exiting Shutdown State"

/-- RiskManager::change_state: exit hook on the old state, swap, enter
hook on the new state. -/
def change_state (w : World) (new_state : RiskStateVal) : World :=
  let w1 := exit_state w.manager.state w
  let w2 := { w1 with manager := { w1.manager with state := new_state } }
  enter_state new_state w2

/-- RiskManager::check_state: ask the active state for a transition and
perform it if one is returned. -/
def check_state (w : World) : World :=
  match check_var w.manager.state w.manager with
  | some s => change_state w s
  | none => w

/-- RiskManager::send_command: delegate to the active state. -/
def send_command (w : World) : World :=
  state_send_command w.manager.state w

/-- RiskManager::update_var: recompute current_var as the sum of the
position contributions. -/
def update_var (w : World) : World :=
  { w with manager := { w.manager with current_var := sumVals w.manager.positions } }

/-- RiskManager::add_position: upsert, recompute, re-evaluate, emit. -/
def add_position (w : World) (position_id : String) (var_contribution : Rat) : World :=
  let w1 := { w with manager :=
    { w.manager with positions := insertPos w.manager.positions position_id var_contribution } }
  send_command (check_state (update_var w1))

/-- RiskManager::remove_position: delete if present, recompute,
re-evaluate, emit. -/
def remove_position (w : World) (position_id : String) : World :=
  let w1 := { w with manager :=
    { w.manager with positions := removePos w.manager.positions position_id } }
  send_command (check_state (update_var w1))

/-- RiskManager::new: Normal state armed with ExecuteTrade, zero VaR,
empty book. -/
def RiskManager.new (var_limit warning_level : Rat) : RiskManager :=
  { state := ⟨NormalOperation, ExecuteTrade⟩,
    var_limit := var_limit,
    warning_level := warning_level,
    current_var := 0,
    positions := [] }

/-- A fresh world: a manager from RiskManager.new wired to an open, empty
channel with no effects recorded yet. -/
def World.init (var_limit warning_level : Rat) : World :=
  { manager := RiskManager.new var_limit warning_level,
    channelOpen := true,
    channel := [],
    failedSends := 0,
    notifications := [],
    log := [] }

/-- An externally invoked manager operation (the public mutators plus a
bare check_state call, which the test code also issues). -/
inductive Op where
  | add (position_id : String) (var_contribution : Rat)
  | remove (position_id : String)
  | check
  deriving DecidableEq, Repr

/-- Run one operation. -/
def applyOp (w : World) : Op → World
  | Op.add id v => add_position w id v
  | Op.remove id => remove_position w id
  | Op.check => check_state w

/-- Run a sequence of operations left to right. -/
def runOps (w : World) : List Op → World
  | [] => w
  | op :: rest => runOps (applyOp w op) rest

/-- The receive loop of TradingEngine::start, applied to the finite list
of directives delivered on the channel: each directive is consumed in
order; StopEngine is processed and then the loop breaks, so nothing after
it is touched. -/
def engineLoop : List TradingEngineCommand → List TradingEngineCommand
  | [] => []
  | c :: rest =>
      match c with
      | ExecuteTrade => c :: engineLoop rest
      | NoTrade => c :: engineLoop rest
      | StopEngine => [c]

/-- The state reached by one check_state evaluation, as a pure function of
the manager. -/
def nextState (m : RiskManager) : RiskStateVal :=
  match check_var m.state m with
  | some s => s
  | none => m.state

/-- The transition table of section 4.2 of the spec, written from the
words of the spec (row order and conditions as printed there), on regime
tags. Used only to compare the code against the spec. -/
def specTransitionTable (tag : RiskStateTag) (var wl vl : Rat) : RiskStateTag :=
  match tag with
  | NormalOperation =>
      if wl ≤ var ∧ var < vl then WarningLevel
      else if vl ≤ var then LimitBreach
      else NormalOperation
  | WarningLevel =>
      if var < wl then NormalOperation
      else if vl ≤ var then LimitBreach
      else WarningLevel
  | LimitBreach =>
      if wl ≤ var ∧ var < vl then WarningLevel
      else if var < wl then NormalOperation
      else if vl * (6 / 5) ≤ var then Shutdown
      else LimitBreach
  | Shutdown => Shutdown

/-- The directives appended to the channel minus the ones already there:
what a call sent. -/
def sentBy (w w2 : World) : List TradingEngineCommand :=
  w2.channel.drop w.channel.length

/-- The notification text of Shutdown entry. -/
def shutdownMsg : String := "Shutdown initiated due to extreme risk levels."

/-- The println line of the exit hook of a state. -/
def exitMsg : RiskStateTag → String
  | NormalOperation => "Exiting Normal Operation State"
  | WarningLevel => "Exiting Warning Level State"
  | LimitBreach => "Exiting Limit Breach State"
  | Shutdown => "Exiting Shutdown State"

/-- The println lines of the enter hook of a state. -/
def enterLogMsgs : RiskStateTag → List String
  | NormalOperation => ["Entering Normal Operation State"]
  | WarningLevel =>
      ["Entering Warning Level State",
       "Sending email notification: Warning Level reached. Increased monitoring and trading limitations are in effect."]
  | LimitBreach =>
      ["Entering Limit Breach State",
       "Sending email notification: Limit Breach! New trades are blocked. Positions may be closed."]
  | Shutdown =>
      ["Entering Shutdown State",
       "Sending email notification: Shutdown initiated due to extreme risk levels."]

/-- The email notifications of the enter hook of a state. -/
def enterNotes : RiskStateTag → List String
  | NormalOperation => []
  | WarningLevel =>
      ["Warning Level reached. Increased monitoring and trading limitations are in effect."]
  | LimitBreach => ["Limit Breach! New trades are blocked. Positions may be closed."]
  | Shutdown => [shutdownMsg]

/-- The println lines produced by one check_state call. -/
def transitionLog (m : RiskManager) : List String :=
  match check_var m.state m with
  | none => []
  | some s => exitMsg m.state.tag :: enterLogMsgs s.tag

/-- The email notifications produced by one check_state call. -/
def transitionNotes (m : RiskManager) : List String :=
  match check_var m.state m with
  | none => []
  | some s => enterNotes s.tag

/-- The manager after the book mutation and the update_var recomputation
of a mutating call, before check_state runs. -/
def afterBook (m : RiskManager) (ps : List (String × Rat)) : RiskManager :=
  { m with positions := ps, current_var := sumVals ps }

/-! ### Frame lemmas for the effect primitives -/

@[simp] theorem emitLog_manager (w : World) (msg : String) :
    (emitLog w msg).manager = w.manager := rfl

@[simp] theorem emitLog_channel (w : World) (msg : String) :
    (emitLog w msg).channel = w.channel := rfl

@[simp] theorem emitLog_channelOpen (w : World) (msg : String) :
    (emitLog w msg).channelOpen = w.channelOpen := rfl

@[simp] theorem emitLog_failedSends (w : World) (msg : String) :
    (emitLog w msg).failedSends = w.failedSends := rfl

@[simp] theorem emitLog_notifications (w : World) (msg : String) :
    (emitLog w msg).notifications = w.notifications := rfl

@[simp] theorem emitLog_log (w : World) (msg : String) :
    (emitLog w msg).log = w.log ++ [msg] := rfl

@[simp] theorem notify_manager (w : World) (msg : String) :
    (send_email_notification w msg).manager = w.manager := rfl

@[simp] theorem notify_channel (w : World) (msg : String) :
    (send_email_notification w msg).channel = w.channel := rfl

@[simp] theorem notify_channelOpen (w : World) (msg : String) :
    (send_email_notification w msg).channelOpen = w.channelOpen := rfl

@[simp] theorem notify_failedSends (w : World) (msg : String) :
    (send_email_notification w msg).failedSends = w.failedSends := rfl

@[simp] theorem notify_notifications (w : World) (msg : String) :
    (send_email_notification w msg).notifications = w.notifications ++ [msg] := rfl

@[simp] theorem notify_log (w : World) (msg : String) :
    (send_email_notification w msg).log
      = w.log ++ ["Sending email notification: " ++ msg] := rfl

@[simp] theorem channelSend_manager (w : World) (c : TradingEngineCommand) :
    (channelSend w c).manager = w.manager := by
  unfold channelSend; split <;> rfl

@[simp] theorem channelSend_channelOpen (w : World) (c : TradingEngineCommand) :
    (channelSend w c).channelOpen = w.channelOpen := by
  unfold channelSend; split <;> rfl

@[simp] theorem channelSend_notifications (w : World) (c : TradingEngineCommand) :
    (channelSend w c).notifications = w.notifications := by
  unfold channelSend; split <;> rfl

@[simp] theorem channelSend_log (w : World) (c : TradingEngineCommand) :
    (channelSend w c).log = w.log := by
  unfold channelSend; split <;> rfl

theorem channelSend_channel_open (w : World) (c : TradingEngineCommand)
    (h : w.channelOpen = true) :
    (channelSend w c).channel = w.channel ++ [c] := by
  unfold channelSend; rw [h]; rfl

theorem channelSend_channel_closed (w : World) (c : TradingEngineCommand)
    (h : w.channelOpen = false) :
    (channelSend w c).channel = w.channel := by
  unfold channelSend; rw [h]; rfl

theorem channelSend_failedSends_open (w : World) (c : TradingEngineCommand)
    (h : w.channelOpen = true) :
    (channelSend w c).failedSends = w.failedSends := by
  unfold channelSend; rw [h]; rfl

theorem channelSend_failedSends_closed (w : World) (c : TradingEngineCommand)
    (h : w.channelOpen = false) :
    (channelSend w c).failedSends = w.failedSends + 1 := by
  unfold channelSend; rw [h]; rfl

/-! ### Frame lemmas for the state hooks -/

@[simp] theorem exit_state_manager (s : RiskStateVal) (w : World) :
    (exit_state s w).manager = w.manager := by
  rcases s with ⟨tag, cmd⟩; cases tag <;> rfl

@[simp] theorem exit_state_channel (s : RiskStateVal) (w : World) :
    (exit_state s w).channel = w.channel := by
  rcases s with ⟨tag, cmd⟩; cases tag <;> rfl

@[simp] theorem exit_state_channelOpen (s : RiskStateVal) (w : World) :
    (exit_state s w).channelOpen = w.channelOpen := by
  rcases s with ⟨tag, cmd⟩; cases tag <;> rfl

@[simp] theorem exit_state_failedSends (s : RiskStateVal) (w : World) :
    (exit_state s w).failedSends = w.failedSends := by
  rcases s with ⟨tag, cmd⟩; cases tag <;> rfl

@[simp] theorem exit_state_notifications (s : RiskStateVal) (w : World) :
    (exit_state s w).notifications = w.notifications := by
  rcases s with ⟨tag, cmd⟩; cases tag <;> rfl

@[simp] theorem exit_state_log (s : RiskStateVal) (w : World) :
    (exit_state s w).log = w.log ++ [exitMsg s.tag] := by
  rcases s with ⟨tag, cmd⟩; cases tag <;> rfl

@[simp] theorem enter_state_manager (s : RiskStateVal) (w : World) :
    (enter_state s w).manager = w.manager := by
  rcases s with ⟨tag, cmd⟩
  cases tag <;> simp [enter_state, state_send_command]

@[simp] theorem enter_state_channelOpen (s : RiskStateVal) (w : World) :
    (enter_state s w).channelOpen = w.channelOpen := by
  rcases s with ⟨tag, cmd⟩
  cases tag <;> simp [enter_state, state_send_command]

@[simp] theorem enter_state_notifications (s : RiskStateVal) (w : World) :
    (enter_state s w).notifications = w.notifications ++ enterNotes s.tag := by
  rcases s with ⟨tag, cmd⟩
  cases tag <;> simp [enter_state, state_send_command, enterNotes, shutdownMsg]

@[simp] theorem enter_state_log (s : RiskStateVal) (w : World) :
    (enter_state s w).log = w.log ++ enterLogMsgs s.tag := by
  rcases s with ⟨tag, cmd⟩
  cases tag <;> simp [enter_state, state_send_command, enterLogMsgs]

theorem enter_state_channel_open (s : RiskStateVal) (w : World)
    (h : w.channelOpen = true) :
    (enter_state s w).channel
      = w.channel ++ (if s.tag = Shutdown then [stateDirective s] else []) := by
  rcases s with ⟨tag, cmd⟩
  cases tag <;>
    simp [enter_state, state_send_command, channelSend_channel_open, h, stateDirective]

theorem enter_state_channel_closed (s : RiskStateVal) (w : World)
    (h : w.channelOpen = false) :
    (enter_state s w).channel = w.channel := by
  rcases s with ⟨tag, cmd⟩
  cases tag <;>
    simp [enter_state, state_send_command, channelSend_channel_closed, h]

theorem enter_state_failedSends_open (s : RiskStateVal) (w : World)
    (h : w.channelOpen = true) :
    (enter_state s w).failedSends = w.failedSends := by
  rcases s with ⟨tag, cmd⟩
  cases tag <;>
    simp [enter_state, state_send_command, channelSend_failedSends_open, h]

theorem enter_state_failedSends_closed (s : RiskStateVal) (w : World)
    (h : w.channelOpen = false) :
    (enter_state s w).failedSends
      = w.failedSends + (if s.tag = Shutdown then 1 else 0) := by
  rcases s with ⟨tag, cmd⟩
  cases tag <;>
    simp [enter_state, state_send_command, channelSend_failedSends_closed, h]

/-! ### Lemmas for change_state, check_state, send_command -/

theorem change_state_manager (w : World) (s : RiskStateVal) :
    (change_state w s).manager = { w.manager with state := s } := by
  unfold change_state
  simp

theorem change_state_channelOpen (w : World) (s : RiskStateVal) :
    (change_state w s).channelOpen = w.channelOpen := by
  unfold change_state
  simp

theorem change_state_channel_open (w : World) (s : RiskStateVal)
    (h : w.channelOpen = true) :
    (change_state w s).channel
      = w.channel ++ (if s.tag = Shutdown then [stateDirective s] else []) := by
  unfold change_state
  rw [enter_state_channel_open]
  · simp
  · simp [h]

theorem change_state_channel_closed (w : World) (s : RiskStateVal)
    (h : w.channelOpen = false) :
    (change_state w s).channel = w.channel := by
  unfold change_state
  rw [enter_state_channel_closed]
  · simp
  · simp [h]

theorem change_state_failedSends_open (w : World) (s : RiskStateVal)
    (h : w.channelOpen = true) :
    (change_state w s).failedSends = w.failedSends := by
  unfold change_state
  rw [enter_state_failedSends_open]
  · simp
  · simp [h]

theorem change_state_failedSends_closed (w : World) (s : RiskStateVal)
    (h : w.channelOpen = false) :
    (change_state w s).failedSends
      = w.failedSends + (if s.tag = Shutdown then 1 else 0) := by
  unfold change_state
  rw [enter_state_failedSends_closed]
  · simp
  · simp [h]

theorem change_state_log (w : World) (s : RiskStateVal) :
    (change_state w s).log
      = w.log ++ (exitMsg w.manager.state.tag :: enterLogMsgs s.tag) := by
  unfold change_state
  simp

theorem change_state_notifications (w : World) (s : RiskStateVal) :
    (change_state w s).notifications = w.notifications ++ enterNotes s.tag := by
  unfold change_state
  simp

/-- Shape of any state returned by check_var: it differs from the current
state, and the Shutdown state is always armed with StopEngine. -/
theorem check_var_some (s0 : RiskStateVal) (m : RiskManager) (s : RiskStateVal)
    (h : check_var s0 m = some s) :
    s.tag ≠ s0.tag ∧ (s.tag = Shutdown → s.cmd = StopEngine) := by
  rcases s with ⟨t2, c2⟩
  rcases s0 with ⟨tag, cmd⟩
  cases tag <;> simp only [check_var] at h <;> (try split_ifs at h) <;> simp_all <;>
    (try rcases h with ⟨rfl, rfl⟩) <;> simp

theorem check_state_manager (w : World) :
    (check_state w).manager = { w.manager with state := nextState w.manager } := by
  unfold check_state nextState
  cases h : check_var w.manager.state w.manager with
  | none => rfl
  | some s => rw [change_state_manager]

theorem check_state_channelOpen (w : World) :
    (check_state w).channelOpen = w.channelOpen := by
  unfold check_state
  cases h : check_var w.manager.state w.manager with
  | none => rfl
  | some s => rw [change_state_channelOpen]

theorem check_state_log (w : World) :
    (check_state w).log = w.log ++ transitionLog w.manager := by
  unfold check_state transitionLog
  cases h : check_var w.manager.state w.manager with
  | none => simp
  | some s => rw [change_state_log]

theorem check_state_notifications (w : World) :
    (check_state w).notifications = w.notifications ++ transitionNotes w.manager := by
  unfold check_state transitionNotes
  cases h : check_var w.manager.state w.manager with
  | none => simp
  | some s => rw [change_state_notifications]

theorem check_state_channel_open (w : World) (h : w.channelOpen = true) :
    (check_state w).channel
      = w.channel ++
        (if (nextState w.manager).tag = Shutdown ∧ w.manager.state.tag ≠ Shutdown
         then [StopEngine] else []) := by
  unfold check_state nextState
  cases hc : check_var w.manager.state w.manager with
  | none =>
      have : ¬(w.manager.state.tag = Shutdown ∧ w.manager.state.tag ≠ Shutdown) := by
        rintro ⟨h1, h2⟩; exact h2 h1
      rw [if_neg this, List.append_nil]
  | some s =>
      obtain ⟨hne, hcmd⟩ := check_var_some _ _ _ hc
      rw [change_state_channel_open w s h]
      by_cases hs : s.tag = Shutdown
      · have hold : w.manager.state.tag ≠ Shutdown := fun hb => hne (hs.trans hb.symm)
        rw [if_pos hs, if_pos ⟨hs, hold⟩]
        have : stateDirective s = StopEngine := by
          unfold stateDirective
          rcases s with ⟨t, c⟩
          cases t <;> simp_all
        rw [this]
      · rw [if_neg hs, if_neg (fun hb => hs hb.1)]

theorem check_state_channel_closed (w : World) (h : w.channelOpen = false) :
    (check_state w).channel = w.channel := by
  unfold check_state
  cases hc : check_var w.manager.state w.manager with
  | none => rfl
  | some s => rw [change_state_channel_closed w s h]

theorem check_state_failedSends_open (w : World) (h : w.channelOpen = true) :
    (check_state w).failedSends = w.failedSends := by
  unfold check_state
  cases hc : check_var w.manager.state w.manager with
  | none => rfl
  | some s => rw [change_state_failedSends_open w s h]

theorem check_state_failedSends_closed_ge (w : World) (h : w.channelOpen = false) :
    w.failedSends ≤ (check_state w).failedSends := by
  unfold check_state
  cases hc : check_var w.manager.state w.manager with
  | none => exact le_refl _
  | some s => rw [change_state_failedSends_closed w s h]; omega

theorem send_command_manager (w : World) :
    (send_command w).manager = w.manager := by
  unfold send_command state_send_command; simp

theorem send_command_channelOpen (w : World) :
    (send_command w).channelOpen = w.channelOpen := by
  unfold send_command state_send_command; simp

theorem send_command_log (w : World) :
    (send_command w).log = w.log := by
  unfold send_command state_send_command; simp

theorem send_command_notifications (w : World) :
    (send_command w).notifications = w.notifications := by
  unfold send_command state_send_command; simp

theorem send_command_channel_open (w : World) (h : w.channelOpen = true) :
    (send_command w).channel = w.channel ++ [stateDirective w.manager.state] := by
  unfold send_command state_send_command
  exact channelSend_channel_open _ _ h

theorem send_command_channel_closed (w : World) (h : w.channelOpen = false) :
    (send_command w).channel = w.channel := by
  unfold send_command state_send_command
  exact channelSend_channel_closed _ _ h

theorem send_command_failedSends_closed (w : World) (h : w.channelOpen = false) :
    (send_command w).failedSends = w.failedSends + 1 := by
  unfold send_command state_send_command
  exact channelSend_failedSends_closed _ _ h

theorem send_command_failedSends_open (w : World) (h : w.channelOpen = true) :
    (send_command w).failedSends = w.failedSends := by
  unfold send_command state_send_command
  exact channelSend_failedSends_open _ _ h

/-! ### The two mutating calls as staged pipelines -/

theorem add_position_eq (w : World) (id : String) (v : Rat) :
    add_position w id v
      = send_command (check_state
          { w with manager := afterBook w.manager (insertPos w.manager.positions id v) }) := rfl

theorem remove_position_eq (w : World) (id : String) :
    remove_position w id
      = send_command (check_state
          { w with manager := afterBook w.manager (removePos w.manager.positions id) }) := rfl

theorem add_position_manager (w : World) (id : String) (v : Rat) :
    (add_position w id v).manager
      = { afterBook w.manager (insertPos w.manager.positions id v) with
          state := nextState (afterBook w.manager (insertPos w.manager.positions id v)) } := by
  rw [add_position_eq, send_command_manager, check_state_manager]

theorem remove_position_manager (w : World) (id : String) :
    (remove_position w id).manager
      = { afterBook w.manager (removePos w.manager.positions id) with
          state := nextState (afterBook w.manager (removePos w.manager.positions id)) } := by
  rw [remove_position_eq, send_command_manager, check_state_manager]

theorem add_position_channel_open (w : World) (id : String) (v : Rat)
    (h : w.channelOpen = true) :
    (add_position w id v).channel
      = w.channel ++
        (if (nextState (afterBook w.manager (insertPos w.manager.positions id v))).tag
              = Shutdown
            ∧ w.manager.state.tag ≠ Shutdown
         then [StopEngine] else []) ++
        [stateDirective (nextState (afterBook w.manager (insertPos w.manager.positions id v)))] := by
  rw [add_position_eq]
  set wB : World :=
    { w with manager := afterBook w.manager (insertPos w.manager.positions id v) } with hwB
  have hB : wB.channelOpen = true := h
  have hCB : (check_state wB).channelOpen = true := by
    rw [check_state_channelOpen]; exact hB
  rw [send_command_channel_open _ hCB, check_state_manager, check_state_channel_open _ hB]
  rfl

theorem remove_position_channel_open (w : World) (id : String)
    (h : w.channelOpen = true) :
    (remove_position w id).channel
      = w.channel ++
        (if (nextState (afterBook w.manager (removePos w.manager.positions id))).tag
              = Shutdown
            ∧ w.manager.state.tag ≠ Shutdown
         then [StopEngine] else []) ++
        [stateDirective (nextState (afterBook w.manager (removePos w.manager.positions id)))] := by
  rw [remove_position_eq]
  set wB : World :=
    { w with manager := afterBook w.manager (removePos w.manager.positions id) } with hwB
  have hB : wB.channelOpen = true := h
  have hCB : (check_state wB).channelOpen = true := by
    rw [check_state_channelOpen]; exact hB
  rw [send_command_channel_open _ hCB, check_state_manager, check_state_channel_open _ hB]
  rfl

theorem add_position_log (w : World) (id : String) (v : Rat) :
    (add_position w id v).log
      = w.log ++ transitionLog (afterBook w.manager (insertPos w.manager.positions id v)) := by
  rw [add_position_eq, send_command_log, check_state_log]

theorem remove_position_log (w : World) (id : String) :
    (remove_position w id).log
      = w.log ++ transitionLog (afterBook w.manager (removePos w.manager.positions id)) := by
  rw [remove_position_eq, send_command_log, check_state_log]

theorem add_position_notifications (w : World) (id : String) (v : Rat) :
    (add_position w id v).notifications
      = w.notifications
        ++ transitionNotes (afterBook w.manager (insertPos w.manager.positions id v)) := by
  rw [add_position_eq, send_command_notifications, check_state_notifications]

theorem remove_position_notifications (w : World) (id : String) :
    (remove_position w id).notifications
      = w.notifications
        ++ transitionNotes (afterBook w.manager (removePos w.manager.positions id)) := by
  rw [remove_position_eq, send_command_notifications, check_state_notifications]

theorem add_position_channelOpen (w : World) (id : String) (v : Rat) :
    (add_position w id v).channelOpen = w.channelOpen := by
  rw [add_position_eq, send_command_channelOpen, check_state_channelOpen]

theorem remove_position_channelOpen (w : World) (id : String) :
    (remove_position w id).channelOpen = w.channelOpen := by
  rw [remove_position_eq, send_command_channelOpen, check_state_channelOpen]

theorem add_position_channel_closed (w : World) (id : String) (v : Rat)
    (h : w.channelOpen = false) :
    (add_position w id v).channel = w.channel := by
  rw [add_position_eq]
  set wB : World :=
    { w with manager := afterBook w.manager (insertPos w.manager.positions id v) } with hwB
  have hB : wB.channelOpen = false := h
  have hCB : (check_state wB).channelOpen = false := by
    rw [check_state_channelOpen]; exact hB
  rw [send_command_channel_closed _ hCB, check_state_channel_closed _ hB]

theorem remove_position_channel_closed (w : World) (id : String)
    (h : w.channelOpen = false) :
    (remove_position w id).channel = w.channel := by
  rw [remove_position_eq]
  set wB : World :=
    { w with manager := afterBook w.manager (removePos w.manager.positions id) } with hwB
  have hB : wB.channelOpen = false := h
  have hCB : (check_state wB).channelOpen = false := by
    rw [check_state_channelOpen]; exact hB
  rw [send_command_channel_closed _ hCB, check_state_channel_closed _ hB]

theorem add_position_failedSends_closed_gt (w : World) (id : String) (v : Rat)
    (h : w.channelOpen = false) :
    w.failedSends < (add_position w id v).failedSends := by
  rw [add_position_eq]
  set wB : World :=
    { w with manager := afterBook w.manager (insertPos w.manager.positions id v) } with hwB
  have hB : wB.channelOpen = false := h
  have hCB : (check_state wB).channelOpen = false := by
    rw [check_state_channelOpen]; exact hB
  rw [send_command_failedSends_closed _ hCB]
  have h2 : wB.failedSends ≤ (check_state wB).failedSends :=
    check_state_failedSends_closed_ge _ hB
  have h3 : wB.failedSends = w.failedSends := rfl
  omega

theorem remove_position_failedSends_closed_gt (w : World) (id : String)
    (h : w.channelOpen = false) :
    w.failedSends < (remove_position w id).failedSends := by
  rw [remove_position_eq]
  set wB : World :=
    { w with manager := afterBook w.manager (removePos w.manager.positions id) } with hwB
  have hB : wB.channelOpen = false := h
  have hCB : (check_state wB).channelOpen = false := by
    rw [check_state_channelOpen]; exact hB
  rw [send_command_failedSends_closed _ hCB]
  have h2 : wB.failedSends ≤ (check_state wB).failedSends :=
    check_state_failedSends_closed_ge _ hB
  have h3 : wB.failedSends = w.failedSends := rfl
  omega

/-! ### Association-list lemmas: the HashMap semantics of the book -/

theorem lookupPos_insertPos (l : List (String × Rat)) (k : String) (v : Rat) (k2 : String) :
    lookupPos (insertPos l k v) k2 = if k = k2 then some v else lookupPos l k2 := by
  induction l with
  | nil => simp [insertPos, lookupPos]
  | cons hd rest ih =>
      rcases hd with ⟨k0, v0⟩
      by_cases h1 : k0 = k
      · subst h1
        by_cases h2 : k0 = k2 <;> simp [insertPos, lookupPos, h2]
      · by_cases h2 : k0 = k2
        · subst h2
          have h3 : ¬k0 = k := h1
          have h4 : ¬k = k0 := fun hh => h3 hh.symm
          simp [insertPos, lookupPos, h3, h4]
        · simp [insertPos, lookupPos, h1, h2, ih]

theorem mem_keys_insertPos (l : List (String × Rat)) (k : String) (v : Rat) (a : String) :
    a ∈ (insertPos l k v).map Prod.fst ↔ a ∈ l.map Prod.fst ∨ a = k := by
  induction l with
  | nil => simp [insertPos]
  | cons hd rest ih =>
      rcases hd with ⟨k0, v0⟩
      by_cases h1 : k0 = k
      · subst h1
        simp [insertPos]
        tauto
      · simp [insertPos, h1, ih]
        tauto

theorem nodup_keys_insertPos (l : List (String × Rat)) (k : String) (v : Rat)
    (h : (l.map Prod.fst).Nodup) : ((insertPos l k v).map Prod.fst).Nodup := by
  induction l with
  | nil => simp [insertPos]
  | cons hd rest ih =>
      rcases hd with ⟨k0, v0⟩
      rw [List.map_cons, List.nodup_cons] at h
      by_cases h1 : k0 = k
      · subst h1
        rw [insertPos, if_pos rfl, List.map_cons, List.nodup_cons]
        exact h
      · rw [insertPos, if_neg h1, List.map_cons, List.nodup_cons]
        constructor
        · rw [mem_keys_insertPos]
          rintro (hmem | heq)
          · exact h.1 hmem
          · exact h1 heq
        · exact ih h.2

theorem keys_removePos_sublist (l : List (String × Rat)) (k : String) :
    List.Sublist ((removePos l k).map Prod.fst) (l.map Prod.fst) := by
  induction l with
  | nil => simp [removePos]
  | cons hd rest ih =>
      rcases hd with ⟨k0, v0⟩
      by_cases h1 : k0 = k
      · simp only [removePos, if_pos h1, List.map_cons]
        exact List.sublist_cons_self _ _
      · simp only [removePos, if_neg h1, List.map_cons]
        exact ih.cons₂ _

theorem nodup_keys_removePos (l : List (String × Rat)) (k : String)
    (h : (l.map Prod.fst).Nodup) : ((removePos l k).map Prod.fst).Nodup :=
  h.sublist (keys_removePos_sublist l k)

theorem lookupPos_eq_none (l : List (String × Rat)) (k : String)
    (h : k ∉ l.map Prod.fst) : lookupPos l k = none := by
  induction l with
  | nil => rfl
  | cons hd rest ih =>
      rcases hd with ⟨k0, v0⟩
      rw [List.map_cons, List.mem_cons] at h
      push_neg at h
      have h1 : ¬k0 = k := fun hh => h.1 hh.symm
      rw [lookupPos, if_neg h1]
      exact ih h.2

theorem lookupPos_removePos (l : List (String × Rat)) (k k2 : String)
    (h : (l.map Prod.fst).Nodup) :
    lookupPos (removePos l k) k2 = if k = k2 then none else lookupPos l k2 := by
  induction l with
  | nil => simp [removePos, lookupPos]
  | cons hd rest ih =>
      rcases hd with ⟨k0, v0⟩
      rw [List.map_cons, List.nodup_cons] at h
      by_cases h1 : k0 = k
      · subst h1
        rw [removePos, if_pos rfl]
        by_cases h2 : k0 = k2
        · subst h2
          rw [if_pos rfl]
          exact lookupPos_eq_none _ _ h.1
        · rw [if_neg h2, lookupPos, if_neg h2]
      · rw [removePos, if_neg h1]
        by_cases h2 : k0 = k2
        · subst h2
          have h3 : ¬k0 = k := h1
          rw [lookupPos, if_pos rfl, if_neg (fun hk => h3 hk.symm), lookupPos, if_pos rfl]
        · rw [lookupPos, if_neg h2, lookupPos, if_neg h2, ih h.2]

theorem removePos_of_lookup_none (l : List (String × Rat)) (k : String)
    (h : lookupPos l k = none) : removePos l k = l := by
  induction l with
  | nil => rfl
  | cons hd rest ih =>
      rcases hd with ⟨k0, v0⟩
      rw [lookupPos] at h
      by_cases h1 : k0 = k
      · rw [if_pos h1] at h; exact absurd h (by simp)
      · rw [if_neg h1] at h
        rw [removePos, if_neg h1, ih h]

/-! ### Invariants preserved along operation sequences -/

theorem applyOp_var_inv (w : World) (op : Op)
    (h : w.manager.current_var = sumVals w.manager.positions) :
    (applyOp w op).manager.current_var = sumVals (applyOp w op).manager.positions := by
  cases op with
  | add id v => rw [applyOp, add_position_manager]; rfl
  | remove id => rw [applyOp, remove_position_manager]; rfl
  | check => rw [applyOp, check_state_manager]; exact h

theorem applyOp_keys_nodup (w : World) (op : Op)
    (h : (w.manager.positions.map Prod.fst).Nodup) :
    ((applyOp w op).manager.positions.map Prod.fst).Nodup := by
  cases op with
  | add id v =>
      rw [applyOp, add_position_manager]
      exact nodup_keys_insertPos _ _ _ h
  | remove id =>
      rw [applyOp, remove_position_manager]
      exact nodup_keys_removePos _ _ h
  | check => rw [applyOp, check_state_manager]; exact h

theorem applyOp_limits (w : World) (op : Op) :
    (applyOp w op).manager.var_limit = w.manager.var_limit
    ∧ (applyOp w op).manager.warning_level = w.manager.warning_level := by
  cases op with
  | add id v => rw [applyOp, add_position_manager]; exact ⟨rfl, rfl⟩
  | remove id => rw [applyOp, remove_position_manager]; exact ⟨rfl, rfl⟩
  | check => rw [applyOp, check_state_manager]; exact ⟨rfl, rfl⟩

theorem runOps_var_inv (ops : List Op) (w : World)
    (h : w.manager.current_var = sumVals w.manager.positions) :
    (runOps w ops).manager.current_var = sumVals (runOps w ops).manager.positions := by
  induction ops generalizing w with
  | nil => exact h
  | cons op rest ih => exact ih _ (applyOp_var_inv w op h)

theorem runOps_keys_nodup (ops : List Op) (w : World)
    (h : (w.manager.positions.map Prod.fst).Nodup) :
    ((runOps w ops).manager.positions.map Prod.fst).Nodup := by
  induction ops generalizing w with
  | nil => exact h
  | cons op rest ih => exact ih _ (applyOp_keys_nodup w op h)

theorem nextState_of_shutdown (m : RiskManager) (h : m.state.tag = Shutdown) :
    nextState m = m.state := by
  unfold nextState check_var
  rw [h]

theorem applyOp_shutdown (w : World) (op : Op)
    (h : w.manager.state.tag = Shutdown) :
    (applyOp w op).manager.state.tag = Shutdown := by
  cases op with
  | add id v =>
      rw [applyOp, add_position_manager]
      have : nextState (afterBook w.manager (insertPos w.manager.positions id v))
          = w.manager.state := nextState_of_shutdown _ h
      simp only [this]
      exact h
  | remove id =>
      rw [applyOp, remove_position_manager]
      have : nextState (afterBook w.manager (removePos w.manager.positions id))
          = w.manager.state := nextState_of_shutdown _ h
      simp only [this]
      exact h
  | check =>
      rw [applyOp, check_state_manager]
      have : nextState w.manager = w.manager.state := nextState_of_shutdown _ h
      simp only [this]
      exact h

/-! ### Lemmas about the trading-engine loop -/

theorem engineLoop_no_stop (cmds : List TradingEngineCommand)
    (h : StopEngine ∉ cmds) : engineLoop cmds = cmds := by
  induction cmds with
  | nil => rfl
  | cons c rest ih =>
      rw [List.mem_cons] at h
      push_neg at h
      cases c with
      | ExecuteTrade => rw [engineLoop, ih h.2]
      | NoTrade => rw [engineLoop, ih h.2]
      | StopEngine => exact absurd rfl h.1

theorem engineLoop_stops (pre post : List TradingEngineCommand)
    (h : StopEngine ∉ pre) :
    engineLoop (pre ++ StopEngine :: post) = pre ++ [StopEngine] := by
  induction pre with
  | nil => rfl
  | cons c rest ih =>
      rw [List.mem_cons] at h
      push_neg at h
      cases c with
      | ExecuteTrade => rw [List.cons_append, engineLoop, ih h.2]; rfl
      | NoTrade => rw [List.cons_append, engineLoop, ih h.2]; rfl
      | StopEngine => exact absurd rfl h.1

/-! ## The claims -/

/-- C2: once the active state is Shutdown it is terminal: no subsequent
sequence of add_position, remove_position or check_state calls moves the
manager out of Shutdown, because the Shutdown transition predicate always
returns none. -/
theorem shutdown_terminal (w : World) (ops : List Op)
    (h : w.manager.state.tag = Shutdown) :
    (runOps w ops).manager.state.tag = Shutdown := by
  induction ops generalizing w with
  | nil => exact h
  | cons op rest ih => exact ih _ (applyOp_shutdown w op h)

/-- Witness for C2 at a concrete shutdown world and a concrete call
sequence. -/
theorem shutdown_terminal_witness :
    (World.mk ⟨⟨Shutdown, StopEngine⟩, 100, 80, 0, []⟩ true [] 0 [] []).manager.state.tag
        = Shutdown
    ∧ (runOps (World.mk ⟨⟨Shutdown, StopEngine⟩, 100, 80, 0, []⟩ true [] 0 [] [])
        [Op.add "A" 1, Op.remove "A", Op.check]).manager.state.tag = Shutdown :=
  ⟨rfl, shutdown_terminal _ _ rfl⟩

/-- C5: starting from a freshly constructed manager, after every sequence
of calls the aggregate current_var equals the sum of the stored
contributions, add_position upserts and remove_position deletes. -/
theorem var_is_sum_of_positions (var_limit warning_level : Rat) (ops : List Op) :
    ((runOps (World.init var_limit warning_level) ops).manager.current_var
      = sumVals (runOps (World.init var_limit warning_level) ops).manager.positions)
    ∧ (∀ id v k,
        lookupPos
          ((add_position (runOps (World.init var_limit warning_level) ops) id v).manager.positions) k
        = if id = k then some v
          else lookupPos (runOps (World.init var_limit warning_level) ops).manager.positions k)
    ∧ (∀ id k,
        lookupPos
          ((remove_position (runOps (World.init var_limit warning_level) ops) id).manager.positions) k
        = if id = k then none
          else lookupPos (runOps (World.init var_limit warning_level) ops).manager.positions k) := by
  refine ⟨runOps_var_inv ops _ rfl, ?_, ?_⟩
  · intro id v k
    rw [add_position_manager]
    exact lookupPos_insertPos _ _ _ _
  · intro id k
    rw [remove_position_manager]
    exact lookupPos_removePos _ _ _ (runOps_keys_nodup ops _ (by simp [World.init, RiskManager.new]))

/-- C7: the worker consumes directives in FIFO order, terminates at the
first StopEngine, and never processes anything positioned after it; a
StopEngine-free sequence is processed in full, in order. -/
theorem engine_fifo_stop (pre post : List TradingEngineCommand)
    (h : StopEngine ∉ pre) :
    engineLoop (pre ++ StopEngine :: post) = pre ++ [StopEngine]
    ∧ engineLoop pre = pre :=
  ⟨engineLoop_stops pre post h, engineLoop_no_stop pre h⟩

/-- Witness for C7 on a concrete directive sequence with directives after
the first StopEngine. -/
theorem engine_fifo_stop_witness :
    StopEngine ∉ [ExecuteTrade, NoTrade]
    ∧ (engineLoop ([ExecuteTrade, NoTrade] ++ StopEngine :: [ExecuteTrade, NoTrade])
        = [ExecuteTrade, NoTrade] ++ [StopEngine]
      ∧ engineLoop [ExecuteTrade, NoTrade] = [ExecuteTrade, NoTrade]) :=
  ⟨by decide, engine_fifo_stop [ExecuteTrade, NoTrade] [ExecuteTrade, NoTrade] (by decide)⟩

/-- C10: check_state touches at most the state field of the manager,
and send_command touches no manager field at all. -/
theorem check_send_frame (w : World) :
    (check_state w).manager.positions = w.manager.positions
    ∧ (check_state w).manager.current_var = w.manager.current_var
    ∧ (check_state w).manager.var_limit = w.manager.var_limit
    ∧ (check_state w).manager.warning_level = w.manager.warning_level
    ∧ (send_command w).manager = w.manager := by
  refine ⟨?_, ?_, ?_, ?_, send_command_manager w⟩ <;> rw [check_state_manager]

/-- The one-hop evaluation of check_var agrees with the transition table
of the spec on every manager, row for row. -/
theorem nextState_tag_eq_table (m : RiskManager) :
    (nextState m).tag
      = specTransitionTable m.state.tag m.current_var m.warning_level m.var_limit := by
  rcases hs : m.state with ⟨tag, cmd⟩
  cases tag <;>
    simp only [nextState, check_var, specTransitionTable, should_shutdown, hs,
      decide_eq_true_eq] <;>
    split_ifs <;> simp_all

/-- Row Normal of the table sends var at or above 1.2 times the limit to
Breach, given sane thresholds. -/
theorem table_normal_extreme (var wl vl : Rat) (hw : 0 < wl) (hl : wl < vl)
    (hv : vl * (6 / 5) ≤ var) :
    specTransitionTable NormalOperation var wl vl = LimitBreach := by
  have hvl : vl ≤ var := by nlinarith
  have h1 : ¬(wl ≤ var ∧ var < vl) := by rintro ⟨-, h⟩; linarith
  show (if wl ≤ var ∧ var < vl then WarningLevel
        else if vl ≤ var then LimitBreach else NormalOperation) = LimitBreach
  rw [if_neg h1, if_pos hvl]

/-- Row Warning of the table sends var at or above 1.2 times the limit to
Breach, given sane thresholds. -/
theorem table_warning_extreme (var wl vl : Rat) (hw : 0 < wl) (hl : wl < vl)
    (hv : vl * (6 / 5) ≤ var) :
    specTransitionTable WarningLevel var wl vl = LimitBreach := by
  have hvl : vl ≤ var := by nlinarith
  have h1 : ¬(var < wl) := by linarith
  show (if var < wl then NormalOperation
        else if vl ≤ var then LimitBreach else WarningLevel) = LimitBreach
  rw [if_neg h1, if_pos hvl]

/-- C1: a single check_state call performs exactly the one hop given by
the transition-table row of the current state (so at most one hop), and
in particular an extreme VaR reading, at or above 1.2 times the limit,
moves Normal to Breach and Warning to Breach, never directly to
Shutdown. Thresholds are assumed sane as in the construction contract of
the spec, 0 < warning_level < var_limit. -/
theorem check_state_one_hop_table (w : World)
    (hw : 0 < w.manager.warning_level)
    (hl : w.manager.warning_level < w.manager.var_limit) :
    ((check_state w).manager.state.tag
      = specTransitionTable w.manager.state.tag w.manager.current_var
          w.manager.warning_level w.manager.var_limit)
    ∧ (w.manager.state.tag = NormalOperation →
        w.manager.var_limit * (6 / 5) ≤ w.manager.current_var →
        (check_state w).manager.state.tag = LimitBreach)
    ∧ (w.manager.state.tag = WarningLevel →
        w.manager.var_limit * (6 / 5) ≤ w.manager.current_var →
        (check_state w).manager.state.tag = LimitBreach) := by
  have hmain : (check_state w).manager.state.tag
      = specTransitionTable w.manager.state.tag w.manager.current_var
          w.manager.warning_level w.manager.var_limit := by
    rw [check_state_manager]
    exact nextState_tag_eq_table w.manager
  refine ⟨hmain, ?_, ?_⟩
  · intro htag hv
    rw [hmain, htag]
    exact table_normal_extreme _ _ _ hw hl hv
  · intro htag hv
    rw [hmain, htag]
    exact table_warning_extreme _ _ _ hw hl hv

/-- Witness for C1 at a concrete Normal-state manager whose VaR is 1.4
times the limit. -/
def wNormal140 : World :=
  ⟨⟨⟨NormalOperation, ExecuteTrade⟩, 100, 80, 140, [("A", 140)]⟩, true, [], 0, [], []⟩

theorem check_state_one_hop_table_witness :
    (0 : Rat) < wNormal140.manager.warning_level
    ∧ wNormal140.manager.warning_level < wNormal140.manager.var_limit
    ∧ (((check_state wNormal140).manager.state.tag
        = specTransitionTable wNormal140.manager.state.tag wNormal140.manager.current_var
            wNormal140.manager.warning_level wNormal140.manager.var_limit)
      ∧ (wNormal140.manager.state.tag = NormalOperation →
          wNormal140.manager.var_limit * (6 / 5) ≤ wNormal140.manager.current_var →
          (check_state wNormal140).manager.state.tag = LimitBreach)
      ∧ (wNormal140.manager.state.tag = WarningLevel →
          wNormal140.manager.var_limit * (6 / 5) ≤ wNormal140.manager.current_var →
          (check_state wNormal140).manager.state.tag = LimitBreach)) :=
  ⟨by norm_num [wNormal140], by norm_num [wNormal140],
    check_state_one_hop_table wNormal140
      (by norm_num [wNormal140]) (by norm_num [wNormal140])⟩

/-- C4: a transition into Shutdown emits StopEngine on the channel during
the check_state call itself, from the entry hook, together with the
shutdown notification, before any subsequent send_command runs; the entry
hook alone already performs the emission. -/
theorem shutdown_entry_emits (w : World) (s : RiskStateVal)
    (hopen : w.channelOpen = true)
    (hs : check_var w.manager.state w.manager = some s)
    (htag : s.tag = Shutdown) :
    (check_state w).channel = w.channel ++ [StopEngine]
    ∧ (check_state w).notifications = w.notifications ++ [shutdownMsg]
    ∧ (enter_state s w).channel = w.channel ++ [StopEngine] := by
  obtain ⟨hne, hcmd⟩ := check_var_some _ _ _ hs
  have hcmd2 : s.cmd = StopEngine := hcmd htag
  have hnext : nextState w.manager = s := by
    unfold nextState; rw [hs]
  have hold : w.manager.state.tag ≠ Shutdown := fun hb => hne (htag.trans hb.symm)
  have hdir : stateDirective s = StopEngine := by
    rcases s with ⟨t, c⟩
    have ht2 : t = Shutdown := htag
    have hc2 : c = StopEngine := hcmd2
    subst ht2; subst hc2
    rfl
  have hnotes : transitionNotes w.manager = enterNotes s.tag := by
    unfold transitionNotes; rw [hs]
  refine ⟨?_, ?_, ?_⟩
  · rw [check_state_channel_open w hopen, hnext, if_pos ⟨htag, hold⟩]
  · rw [check_state_notifications, hnotes, htag]
    rfl
  · rw [enter_state_channel_open s w hopen, if_pos htag, hdir]

def wBreach140 : World :=
  ⟨⟨⟨LimitBreach, NoTrade⟩, 100, 80, 140, [("A", 140)]⟩, true, [], 0, [], []⟩

/-- Witness for C4 at a concrete Breach-state manager whose VaR is 1.4
times the limit, so that check_var yields the Shutdown state. -/
theorem shutdown_entry_emits_witness :
    wBreach140.channelOpen = true
    ∧ check_var wBreach140.manager.state wBreach140.manager = some ⟨Shutdown, StopEngine⟩
    ∧ ((check_state wBreach140).channel = wBreach140.channel ++ [StopEngine]
      ∧ (check_state wBreach140).notifications = wBreach140.notifications ++ [shutdownMsg]
      ∧ (enter_state ⟨Shutdown, StopEngine⟩ wBreach140).channel
          = wBreach140.channel ++ [StopEngine]) :=
  ⟨rfl, by norm_num [wBreach140, check_var, should_shutdown],
    shutdown_entry_emits wBreach140 ⟨Shutdown, StopEngine⟩ rfl
      (by norm_num [wBreach140, check_var, should_shutdown]) rfl⟩

def w3a : World := add_position (World.init 100 80) "A" 140

def w3b : World := add_position w3a "B" 5

theorem w3a_nextA :
    nextState (afterBook (World.init 100 80).manager
      (insertPos (World.init 100 80).manager.positions "A" 140))
    = ⟨LimitBreach, NoTrade⟩ := by
  norm_num [World.init, RiskManager.new, afterBook, insertPos, sumVals,
    nextState, check_var, should_shutdown]

theorem w3a_manager : w3a.manager = ⟨⟨LimitBreach, NoTrade⟩, 100, 80, 140, [("A", 140)]⟩ := by
  unfold w3a
  rw [add_position_manager, w3a_nextA]
  norm_num [World.init, RiskManager.new, afterBook, insertPos, sumVals]

theorem w3a_channelOpen : w3a.channelOpen = true := by
  unfold w3a
  rw [add_position_channelOpen]
  rfl

theorem w3a_channel : w3a.channel = [NoTrade] := by
  unfold w3a
  rw [add_position_channel_open _ _ _ rfl, w3a_nextA]
  simp [stateDirective, World.init]

/-- C3 counterexample: a call that transitions into Shutdown pushes TWO
directives, not exactly one. Starting from a fresh manager with limit 100
and warning 80, the first add puts the manager in Breach at VaR 140, and
the second add (VaR 145) transitions Breach to Shutdown and pushes
StopEngine twice: once from the Shutdown entry hook and once from the
closing send_command of the call. -/
theorem mutating_call_one_directive_cex :
    sentBy w3a w3b = [StopEngine, StopEngine]
    ∧ (sentBy w3a w3b).length = 2
    ∧ w3a.manager.state.tag = LimitBreach
    ∧ w3b.manager.state.tag = Shutdown := by
  have hnextB :
      nextState (afterBook w3a.manager (insertPos w3a.manager.positions "B" 5))
      = ⟨Shutdown, StopEngine⟩ := by
    rw [w3a_manager]
    norm_num [afterBook, insertPos, sumVals, nextState, check_var, should_shutdown,
      (by decide : ("A" : String) ≠ "B")]
  have hm2tag : w3b.manager.state.tag = Shutdown := by
    unfold w3b
    rw [add_position_manager, hnextB]
  have hch2 : w3b.channel = [NoTrade, StopEngine, StopEngine] := by
    unfold w3b
    rw [add_position_channel_open _ _ _ w3a_channelOpen, hnextB, w3a_channel]
    rw [w3a_manager]
    simp [stateDirective]
  have hsent : sentBy w3a w3b = [StopEngine, StopEngine] := by
    unfold sentBy
    rw [w3a_channel, hch2]
    rfl
  exact ⟨hsent, by rw [hsent]; rfl, by rw [w3a_manager], hm2tag⟩

/-- C3 amended: every mutating call ends by sending the directive of the
state active after the transition performed within that call; it sends
exactly that one directive, except when the transition of the call enters
Shutdown, in which case StopEngine is pushed twice (once by the entry
hook, once by the closing send_command). -/
theorem mutating_call_emissions (w : World) (id : String) (v : Rat)
    (hopen : w.channelOpen = true) :
    (sentBy w (add_position w id v)
      = (if (add_position w id v).manager.state.tag = Shutdown
            ∧ w.manager.state.tag ≠ Shutdown
         then [StopEngine] else [])
        ++ [stateDirective (add_position w id v).manager.state])
    ∧ (sentBy w (remove_position w id)
      = (if (remove_position w id).manager.state.tag = Shutdown
            ∧ w.manager.state.tag ≠ Shutdown
         then [StopEngine] else [])
        ++ [stateDirective (remove_position w id).manager.state]) := by
  constructor
  · have hch := add_position_channel_open w id v hopen
    have hm := add_position_manager w id v
    unfold sentBy
    rw [hch, hm, List.append_assoc, List.drop_left]
  · have hch := remove_position_channel_open w id hopen
    have hm := remove_position_manager w id
    unfold sentBy
    rw [hch, hm, List.append_assoc, List.drop_left]

/-- Witness for C3 amended at a fresh manager and a single add call. -/
theorem mutating_call_emissions_witness :
    (World.init 100 80).channelOpen = true
    ∧ ((sentBy (World.init 100 80) (add_position (World.init 100 80) "W" 30)
        = (if (add_position (World.init 100 80) "W" 30).manager.state.tag = Shutdown
              ∧ (World.init 100 80).manager.state.tag ≠ Shutdown
           then [StopEngine] else [])
          ++ [stateDirective (add_position (World.init 100 80) "W" 30).manager.state])
      ∧ (sentBy (World.init 100 80) (remove_position (World.init 100 80) "W")
        = (if (remove_position (World.init 100 80) "W").manager.state.tag = Shutdown
              ∧ (World.init 100 80).manager.state.tag ≠ Shutdown
           then [StopEngine] else [])
          ++ [stateDirective (remove_position (World.init 100 80) "W").manager.state])) :=
  ⟨rfl, mutating_call_emissions (World.init 100 80) "W" 30 rfl⟩

/-- C8 counterexample: removing an absent id is NOT always transition
free. From a fresh manager with limit 100 and warning 80, one add of 140
reaches Breach (reachable state); removing the absent id B leaves the
book and current_var unchanged, yet the call still transitions the
manager one hop further, Breach to Shutdown, because VaR 140 is at or
above 1.2 times the limit. -/
theorem remove_absent_no_transition_cex :
    lookupPos w3a.manager.positions "B" = none
    ∧ w3a.manager.state.tag = LimitBreach
    ∧ (remove_position w3a "B").manager.positions = w3a.manager.positions
    ∧ (remove_position w3a "B").manager.current_var = w3a.manager.current_var
    ∧ (remove_position w3a "B").manager.state.tag = Shutdown
    ∧ (remove_position w3a "B").manager.state.tag ≠ w3a.manager.state.tag := by
  have hrm : removePos w3a.manager.positions "B" = w3a.manager.positions := by
    rw [w3a_manager]
    simp [removePos]
  have hnextC :
      nextState (afterBook w3a.manager (removePos w3a.manager.positions "B"))
      = ⟨Shutdown, StopEngine⟩ := by
    rw [hrm, w3a_manager]
    norm_num [afterBook, sumVals, nextState, check_var, should_shutdown]
  have htag : (remove_position w3a "B").manager.state.tag = Shutdown := by
    rw [remove_position_manager, hnextC]
  refine ⟨?_, by rw [w3a_manager], ?_, ?_, htag, ?_⟩
  · rw [w3a_manager]
    simp [lookupPos]
  · rw [remove_position_manager, hrm]
    rw [w3a_manager]
    norm_num [afterBook, sumVals]
  · rw [remove_position_manager, hrm]
    rw [w3a_manager]
    norm_num [afterBook, sumVals]
  · rw [htag, w3a_manager]
    decide

/-- C8 amended: removing an absent id leaves the whole manager unchanged
and still sends the active state directive, PROVIDED the active state is
stable for the unchanged current_var (its transition predicate returns
none); without that proviso the call still re-runs check_state, which can
perform one further hop even though the risk data did not change. The
VaR-consistency hypothesis holds in every state reachable from a fresh
manager. -/
theorem remove_absent_noop (w : World) (id : String)
    (hopen : w.channelOpen = true)
    (habs : lookupPos w.manager.positions id = none)
    (hinv : w.manager.current_var = sumVals w.manager.positions)
    (hstable : check_var w.manager.state w.manager = none) :
    (remove_position w id).manager = w.manager
    ∧ sentBy w (remove_position w id) = [stateDirective w.manager.state] := by
  have hrm : removePos w.manager.positions id = w.manager.positions :=
    removePos_of_lookup_none _ _ habs
  have hB : afterBook w.manager (removePos w.manager.positions id) = w.manager := by
    rw [hrm]
    unfold afterBook
    rw [← hinv]
  have hn : nextState w.manager = w.manager.state := by
    unfold nextState
    rw [hstable]
  constructor
  · rw [remove_position_manager, hB, hn]
  · have hch := remove_position_channel_open w id hopen
    rw [hB, hn] at hch
    unfold sentBy
    rw [hch]
    have hneg : ¬(w.manager.state.tag = Shutdown ∧ w.manager.state.tag ≠ Shutdown) := by
      rintro ⟨h1, h2⟩
      exact h2 h1
    rw [if_neg hneg, List.append_nil, List.drop_left]

/-- Witness for C8 amended: removing an absent id from a fresh manager. -/
theorem remove_absent_noop_witness :
    (World.init 100 80).channelOpen = true
    ∧ lookupPos (World.init 100 80).manager.positions "B" = none
    ∧ (World.init 100 80).manager.current_var
        = sumVals (World.init 100 80).manager.positions
    ∧ check_var (World.init 100 80).manager.state (World.init 100 80).manager = none
    ∧ ((remove_position (World.init 100 80) "B").manager = (World.init 100 80).manager
      ∧ sentBy (World.init 100 80) (remove_position (World.init 100 80) "B")
          = [stateDirective (World.init 100 80).manager.state]) :=
  ⟨rfl, rfl, rfl, by norm_num [World.init, RiskManager.new, check_var],
    remove_absent_noop (World.init 100 80) "B" rfl rfl rfl
      (by norm_num [World.init, RiskManager.new, check_var])⟩

def w9 : World := { World.init 100 80 with channelOpen := false }

/-- C9 counterexample: with the worker gone (channel closed), a mutating
call does fail to send, and the call does complete normally, but NOTHING
is logged about the failure: the source discards the Result of send
without logging, so the log of the whole call is empty while the failure
counter shows one failed send. -/
theorem closed_send_failure_unlogged_cex :
    (add_position w9 "A" 30).log = []
    ∧ (add_position w9 "A" 30).failedSends = 1
    ∧ (add_position w9 "A" 30).channel = []
    ∧ (add_position w9 "A" 30).manager.current_var = 30 := by
  have hcv : check_var (afterBook w9.manager (insertPos w9.manager.positions "A" 30)).state
      (afterBook w9.manager (insertPos w9.manager.positions "A" 30)) = none := by
    norm_num [w9, World.init, RiskManager.new, afterBook, insertPos, sumVals, check_var]
  have hclosed : w9.channelOpen = false := rfl
  set M : RiskManager := afterBook w9.manager (insertPos w9.manager.positions "A" 30) with hM
  have hcs : check_state { w9 with manager := M } = { w9 with manager := M } := by
    unfold check_state
    have h2 : check_var ({ w9 with manager := M }).manager.state
        ({ w9 with manager := M }).manager = none := hcv
    rw [h2]
  refine ⟨?_, ?_, ?_, ?_⟩
  · rw [add_position_log]
    have ht : transitionLog (afterBook w9.manager (insertPos w9.manager.positions "A" 30))
        = [] := by
      unfold transitionLog
      rw [hcv]
    rw [ht]
    rfl
  · rw [add_position_eq, hcs, send_command_failedSends_closed _ rfl]
    rfl
  · exact add_position_channel_closed _ _ _ hclosed
  · rw [add_position_manager]
    norm_num [w9, World.init, RiskManager.new, afterBook, insertPos, sumVals]

/-- C9 amended: a send on a closed channel is non-fatal but silently
discarded, not logged: the mutating call completes with exactly the same
manager, log and notifications as it would with a live worker; nothing
lands on the channel and the failed-send count grows. No error reaches
the caller (the call is a total function into a new world). -/
theorem closed_send_nonfatal (w : World) (id : String) (v : Rat)
    (hclosed : w.channelOpen = false) :
    ((add_position w id v).channel = w.channel
      ∧ w.failedSends < (add_position w id v).failedSends
      ∧ (add_position w id v).manager
          = (add_position { w with channelOpen := true } id v).manager
      ∧ (add_position w id v).log
          = (add_position { w with channelOpen := true } id v).log
      ∧ (add_position w id v).notifications
          = (add_position { w with channelOpen := true } id v).notifications)
    ∧ ((remove_position w id).channel = w.channel
      ∧ w.failedSends < (remove_position w id).failedSends
      ∧ (remove_position w id).manager
          = (remove_position { w with channelOpen := true } id).manager
      ∧ (remove_position w id).log
          = (remove_position { w with channelOpen := true } id).log
      ∧ (remove_position w id).notifications
          = (remove_position { w with channelOpen := true } id).notifications) := by
  refine ⟨⟨?_, ?_, ?_, ?_, ?_⟩, ⟨?_, ?_, ?_, ?_, ?_⟩⟩
  · exact add_position_channel_closed _ _ _ hclosed
  · exact add_position_failedSends_closed_gt _ _ _ hclosed
  · rw [add_position_manager, add_position_manager]
  · rw [add_position_log, add_position_log]
  · rw [add_position_notifications, add_position_notifications]
  · exact remove_position_channel_closed _ _ hclosed
  · exact remove_position_failedSends_closed_gt _ _ hclosed
  · rw [remove_position_manager, remove_position_manager]
  · rw [remove_position_log, remove_position_log]
  · rw [remove_position_notifications, remove_position_notifications]

/-- Witness for C9 amended at a closed-channel fresh world. -/
theorem closed_send_nonfatal_witness :
    w9.channelOpen = false
    ∧ (((add_position w9 "A" 30).channel = w9.channel
      ∧ w9.failedSends < (add_position w9 "A" 30).failedSends
      ∧ (add_position w9 "A" 30).manager
          = (add_position { w9 with channelOpen := true } "A" 30).manager
      ∧ (add_position w9 "A" 30).log
          = (add_position { w9 with channelOpen := true } "A" 30).log
      ∧ (add_position w9 "A" 30).notifications
          = (add_position { w9 with channelOpen := true } "A" 30).notifications)
    ∧ ((remove_position w9 "A").channel = w9.channel
      ∧ w9.failedSends < (remove_position w9 "A").failedSends
      ∧ (remove_position w9 "A").manager
          = (remove_position { w9 with channelOpen := true } "A").manager
      ∧ (remove_position w9 "A").log
          = (remove_position { w9 with channelOpen := true } "A").log
      ∧ (remove_position w9 "A").notifications
          = (remove_position { w9 with channelOpen := true } "A").notifications)) :=
  ⟨rfl, closed_send_nonfatal w9 "A" 30 rfl⟩

/-- The five adds of the test scenario: limit 100, warning 80,
contributions 30, 40, 20, 15, 35. -/
def c6ops : List Op :=
  [Op.add "Position1" 30, Op.add "Position2" 40, Op.add "Position3" 20,
   Op.add "Position4" 15, Op.add "Position5" 35]

/-- C6: on a fresh manager with limit 100 and warning 80, the five adds
produce, after each call, the regimes Normal, Normal, Warning, Breach,
Shutdown, and each call concludes by sending the directive of that
regime: ExecuteTrade, ExecuteTrade, ExecuteTrade, NoTrade, StopEngine, as
the channel prefixes show; the Shutdown alert notification fires exactly
once over the whole sequence. (The channel ends with two StopEngine
entries because Shutdown entry emits one more, see the C3 theorems.) -/
theorem scenario_five_adds :
    ((runOps (World.init 100 80) (c6ops.take 1)).manager.state.tag = NormalOperation
      ∧ stateDirective (runOps (World.init 100 80) (c6ops.take 1)).manager.state
          = ExecuteTrade
      ∧ (runOps (World.init 100 80) (c6ops.take 1)).channel = [ExecuteTrade])
    ∧ ((runOps (World.init 100 80) (c6ops.take 2)).manager.state.tag = NormalOperation
      ∧ stateDirective (runOps (World.init 100 80) (c6ops.take 2)).manager.state
          = ExecuteTrade
      ∧ (runOps (World.init 100 80) (c6ops.take 2)).channel
          = [ExecuteTrade, ExecuteTrade])
    ∧ ((runOps (World.init 100 80) (c6ops.take 3)).manager.state.tag = WarningLevel
      ∧ stateDirective (runOps (World.init 100 80) (c6ops.take 3)).manager.state
          = ExecuteTrade
      ∧ (runOps (World.init 100 80) (c6ops.take 3)).channel
          = [ExecuteTrade, ExecuteTrade, ExecuteTrade])
    ∧ ((runOps (World.init 100 80) (c6ops.take 4)).manager.state.tag = LimitBreach
      ∧ stateDirective (runOps (World.init 100 80) (c6ops.take 4)).manager.state
          = NoTrade
      ∧ (runOps (World.init 100 80) (c6ops.take 4)).channel
          = [ExecuteTrade, ExecuteTrade, ExecuteTrade, NoTrade])
    ∧ ((runOps (World.init 100 80) c6ops).manager.state.tag = Shutdown
      ∧ stateDirective (runOps (World.init 100 80) c6ops).manager.state = StopEngine
      ∧ (runOps (World.init 100 80) c6ops).channel
          = [ExecuteTrade, ExecuteTrade, ExecuteTrade, NoTrade, StopEngine, StopEngine])
    ∧ ((runOps (World.init 100 80) c6ops).notifications.count shutdownMsg = 1) := by
  simp only [c6ops, List.take, runOps, applyOp]
  set w1 : World := add_position (World.init 100 80) "Position1" 30 with hw1
  set w2 : World := add_position w1 "Position2" 40 with hw2
  set w3 : World := add_position w2 "Position3" 20 with hw3
  set w4 : World := add_position w3 "Position4" 15 with hw4
  set w5 : World := add_position w4 "Position5" 35 with hw5
  have hnext1 :
      nextState (afterBook (World.init 100 80).manager
        (insertPos (World.init 100 80).manager.positions "Position1" 30))
      = ⟨NormalOperation, ExecuteTrade⟩ := by
    norm_num [World.init, RiskManager.new, afterBook, insertPos, sumVals,
      nextState, check_var, should_shutdown]
  have htn1 :
      transitionNotes (afterBook (World.init 100 80).manager
        (insertPos (World.init 100 80).manager.positions "Position1" 30))
      = [] := by
    norm_num [World.init, RiskManager.new, afterBook, insertPos, sumVals,
      transitionNotes, check_var, should_shutdown]
  have hm1 : w1.manager
      = ⟨⟨NormalOperation, ExecuteTrade⟩, 100, 80, 30, [("Position1", 30)]⟩ := by
    rw [hw1, add_position_manager, hnext1]
    norm_num [World.init, RiskManager.new, afterBook, insertPos, sumVals]
  have ho1 : w1.channelOpen = true := by
    rw [hw1, add_position_channelOpen]
    rfl
  have hch1 : w1.channel = [ExecuteTrade] := by
    rw [hw1, add_position_channel_open _ _ _ rfl, hnext1]
    simp [stateDirective, World.init]
  have hn1 : w1.notifications = [] := by
    rw [hw1, add_position_notifications, htn1]
    rfl
  have hnext2 :
      nextState (afterBook w1.manager (insertPos w1.manager.positions "Position2" 40))
      = ⟨NormalOperation, ExecuteTrade⟩ := by
    rw [hm1]
    norm_num [afterBook, insertPos, sumVals, nextState, check_var, should_shutdown,
      (by decide : ("Position1" : String) ≠ "Position2")]
  have htn2 :
      transitionNotes (afterBook w1.manager (insertPos w1.manager.positions "Position2" 40))
      = [] := by
    rw [hm1]
    norm_num [afterBook, insertPos, sumVals, transitionNotes, check_var, should_shutdown,
      (by decide : ("Position1" : String) ≠ "Position2")]
  have hm2 : w2.manager
      = ⟨⟨NormalOperation, ExecuteTrade⟩, 100, 80, 70,
          [("Position1", 30), ("Position2", 40)]⟩ := by
    rw [hw2, add_position_manager, hnext2, hm1]
    norm_num [afterBook, insertPos, sumVals,
      (by decide : ("Position1" : String) ≠ "Position2")]
  have ho2 : w2.channelOpen = true := by
    rw [hw2, add_position_channelOpen]
    exact ho1
  have hch2 : w2.channel = [ExecuteTrade, ExecuteTrade] := by
    rw [hw2, add_position_channel_open _ _ _ ho1, hnext2, hch1]
    simp [stateDirective]
  have hn2 : w2.notifications = [] := by
    rw [hw2, add_position_notifications, htn2, hn1]
    rfl
  have hnext3 :
      nextState (afterBook w2.manager (insertPos w2.manager.positions "Position3" 20))
      = ⟨WarningLevel, ExecuteTrade⟩ := by
    rw [hm2]
    norm_num [afterBook, insertPos, sumVals, nextState, check_var, should_shutdown,
      (by decide : ("Position1" : String) ≠ "Position3"),
      (by decide : ("Position2" : String) ≠ "Position3")]
  have htn3 :
      transitionNotes (afterBook w2.manager (insertPos w2.manager.positions "Position3" 20))
      = ["Warning Level reached. Increased monitoring and trading limitations are in effect."] := by
    rw [hm2]
    norm_num [afterBook, insertPos, sumVals, transitionNotes, check_var, should_shutdown,
      enterNotes,
      (by decide : ("Position1" : String) ≠ "Position3"),
      (by decide : ("Position2" : String) ≠ "Position3")]
  have hm3 : w3.manager
      = ⟨⟨WarningLevel, ExecuteTrade⟩, 100, 80, 90,
          [("Position1", 30), ("Position2", 40), ("Position3", 20)]⟩ := by
    rw [hw3, add_position_manager, hnext3, hm2]
    norm_num [afterBook, insertPos, sumVals,
      (by decide : ("Position1" : String) ≠ "Position3"),
      (by decide : ("Position2" : String) ≠ "Position3")]
  have ho3 : w3.channelOpen = true := by
    rw [hw3, add_position_channelOpen]
    exact ho2
  have hch3 : w3.channel = [ExecuteTrade, ExecuteTrade, ExecuteTrade] := by
    rw [hw3, add_position_channel_open _ _ _ ho2, hnext3, hch2]
    simp [stateDirective]
  have hn3 : w3.notifications
      = ["Warning Level reached. Increased monitoring and trading limitations are in effect."] := by
    rw [hw3, add_position_notifications, htn3, hn2]
    rfl
  have hnext4 :
      nextState (afterBook w3.manager (insertPos w3.manager.positions "Position4" 15))
      = ⟨LimitBreach, NoTrade⟩ := by
    rw [hm3]
    norm_num [afterBook, insertPos, sumVals, nextState, check_var, should_shutdown,
      (by decide : ("Position1" : String) ≠ "Position4"),
      (by decide : ("Position2" : String) ≠ "Position4"),
      (by decide : ("Position3" : String) ≠ "Position4")]
  have htn4 :
      transitionNotes (afterBook w3.manager (insertPos w3.manager.positions "Position4" 15))
      = ["Limit Breach! New trades are blocked. Positions may be closed."] := by
    rw [hm3]
    norm_num [afterBook, insertPos, sumVals, transitionNotes, check_var, should_shutdown,
      enterNotes,
      (by decide : ("Position1" : String) ≠ "Position4"),
      (by decide : ("Position2" : String) ≠ "Position4"),
      (by decide : ("Position3" : String) ≠ "Position4")]
  have hm4 : w4.manager
      = ⟨⟨LimitBreach, NoTrade⟩, 100, 80, 105,
          [("Position1", 30), ("Position2", 40), ("Position3", 20), ("Position4", 15)]⟩ := by
    rw [hw4, add_position_manager, hnext4, hm3]
    norm_num [afterBook, insertPos, sumVals,
      (by decide : ("Position1" : String) ≠ "Position4"),
      (by decide : ("Position2" : String) ≠ "Position4"),
      (by decide : ("Position3" : String) ≠ "Position4")]
  have ho4 : w4.channelOpen = true := by
    rw [hw4, add_position_channelOpen]
    exact ho3
  have hch4 : w4.channel = [ExecuteTrade, ExecuteTrade, ExecuteTrade, NoTrade] := by
    rw [hw4, add_position_channel_open _ _ _ ho3, hnext4, hch3]
    simp [stateDirective]
  have hn4 : w4.notifications
      = ["Warning Level reached. Increased monitoring and trading limitations are in effect.",
         "Limit Breach! New trades are blocked. Positions may be closed."] := by
    rw [hw4, add_position_notifications, htn4, hn3]
    rfl
  have hnext5 :
      nextState (afterBook w4.manager (insertPos w4.manager.positions "Position5" 35))
      = ⟨Shutdown, StopEngine⟩ := by
    rw [hm4]
    norm_num [afterBook, insertPos, sumVals, nextState, check_var, should_shutdown,
      (by decide : ("Position1" : String) ≠ "Position5"),
      (by decide : ("Position2" : String) ≠ "Position5"),
      (by decide : ("Position3" : String) ≠ "Position5"),
      (by decide : ("Position4" : String) ≠ "Position5")]
  have htn5 :
      transitionNotes (afterBook w4.manager (insertPos w4.manager.positions "Position5" 35))
      = [shutdownMsg] := by
    rw [hm4]
    norm_num [afterBook, insertPos, sumVals, transitionNotes, check_var, should_shutdown,
      enterNotes,
      (by decide : ("Position1" : String) ≠ "Position5"),
      (by decide : ("Position2" : String) ≠ "Position5"),
      (by decide : ("Position3" : String) ≠ "Position5"),
      (by decide : ("Position4" : String) ≠ "Position5")]
  have hm5 : w5.manager
      = ⟨⟨Shutdown, StopEngine⟩, 100, 80, 140,
          [("Position1", 30), ("Position2", 40), ("Position3", 20), ("Position4", 15),
           ("Position5", 35)]⟩ := by
    rw [hw5, add_position_manager, hnext5, hm4]
    norm_num [afterBook, insertPos, sumVals,
      (by decide : ("Position1" : String) ≠ "Position5"),
      (by decide : ("Position2" : String) ≠ "Position5"),
      (by decide : ("Position3" : String) ≠ "Position5"),
      (by decide : ("Position4" : String) ≠ "Position5")]
  have hch5 : w5.channel
      = [ExecuteTrade, ExecuteTrade, ExecuteTrade, NoTrade, StopEngine, StopEngine] := by
    rw [hw5, add_position_channel_open _ _ _ ho4, hnext5, hch4]
    rw [hm4]
    simp [stateDirective]
  have hn5 : w5.notifications
      = ["Warning Level reached. Increased monitoring and trading limitations are in effect.",
         "Limit Breach! New trades are blocked. Positions may be closed.",
         shutdownMsg] := by
    rw [hw5, add_position_notifications, htn5, hn4]
    rfl
  refine ⟨⟨?_, ?_, hch1⟩, ⟨?_, ?_, hch2⟩, ⟨?_, ?_, hch3⟩, ⟨?_, ?_, hch4⟩,
    ⟨?_, ?_, hch5⟩, ?_⟩
  · rw [hm1]
  · rw [hm1]
    rfl
  · rw [hm2]
  · rw [hm2]
    rfl
  · rw [hm3]
  · rw [hm3]
    rfl
  · rw [hm4]
  · rw [hm4]
    rfl
  · rw [hm5]
  · rw [hm5]
    rfl
  · rw [hn5]
    decide

end StatePattern
